import Mathlib

/-!
Verification of the input-mapping core of `rust-show-gamepad`.

The definitions below are a shallow embedding of the Rust sources:
  - `src/mapping.rs`   : `Direction`, `State`, `Input`, `SpriteMapping`, `Mapping`
  - `src/joysticks.rs` : `AxisLimits`, `AxisZone`, `GuidAxis`, `JoustickLimits`,
                         `Joysticks` and `Joysticks::update`
  - `src/visualizer.rs`: `SetupOverlay`

Rust `u32`/`usize` indices become `Nat`; `i16`/`i32` arithmetic becomes `Int`
(all intermediate values stay far inside the `i32` range, so two's-complement
overflow never occurs and `Int` is faithful; truncated division `/` on `i32`
is modelled by `Int.tdiv`).  `HashSet<Input>` becomes `Finset Input`,
`HashMap<K, V>` becomes a function `K → Option V` (or `K → List _` with
default `[]` where an absent key and an empty list are indistinguishable to
every operation of the source).  Fallible device reads are modelled with
`Option` results and an explicit success flag.
-/

namespace ShowGamepad

/-- `Direction` from src/mapping.rs: direction of an axis input. -/
inductive Direction
  | Minimum
  | Maximum
  deriving DecidableEq

/-- `State` from src/mapping.rs: the nine hat-switch states. -/
inductive State
  | Center
  | Up
  | Right
  | Down
  | Left
  | RightUp
  | RightDown
  | LeftUp
  | LeftDown
  deriving DecidableEq

/-- `Input` from src/mapping.rs: one normalized input identifier. -/
inductive Input
  | Button (button : Nat)
  | Axis (axis : Nat) (direction : Direction)
  | Hat (hat : Nat) (state : State)
  deriving DecidableEq

/-- `Input::button` from src/mapping.rs. -/
def Input.button (button : Nat) : Input :=
  Input.Button button

/-- `Input::axis_min` from src/mapping.rs. -/
def Input.axis_min (axis : Nat) : Input :=
  Input.Axis axis Direction.Minimum

/-- `Input::axis_max` from src/mapping.rs. -/
def Input.axis_max (axis : Nat) : Input :=
  Input.Axis axis Direction.Maximum

/-- `Input::hat` from src/mapping.rs. -/
def Input.hat (hat : Nat) (state : State) : Input :=
  Input.Hat hat state

/-- `SpriteMapping` from src/mapping.rs: one stored entry of the mapping. -/
structure SpriteMapping where
  buttons : Finset Input
  sprite : Nat
  deriving DecidableEq

/-- The comparison realised by `entry.sort_by_key(|sm| (-(sm.buttons.len() as
isize), sm.sprite()))` in `Mapping::push` (src/mapping.rs line 140): entries
with more buttons come first, ties are broken by ascending sprite id. -/
def entryLe (a b : SpriteMapping) : Prop :=
  b.buttons.card < a.buttons.card ∨
    (a.buttons.card = b.buttons.card ∧ a.sprite ≤ b.sprite)

instance : DecidableRel entryLe := fun a b => by
  unfold entryLe; infer_instance

instance : IsTotal SpriteMapping entryLe :=
  ⟨fun a b => by unfold entryLe; omega⟩

instance : IsTrans SpriteMapping entryLe :=
  ⟨fun a b c => by unfold entryLe; omega⟩

/-- `Mapping` from src/mapping.rs.  The `HashMap<String, Vec<SpriteMapping>>`
is modelled as a total function with default `[]`: every operation of the
source (`push` via `entry(..).or_insert_with(Vec::new)`, `sprites` via
`get`) treats an absent key exactly like an empty list. -/
structure Mapping where
  joysticks : String → List SpriteMapping

/-- `Mapping::new` from src/mapping.rs. -/
def Mapping.new : Mapping :=
  ⟨fun _ => []⟩

/-- `Mapping::push` from src/mapping.rs (lines 131-142).  With an empty
`pressed` set the source executes `entry.retain(|sm| sm.sprite() == sprite)`;
otherwise it appends the new entry and re-sorts the list with a stable sort
by `(-(len), sprite)`, modelled by `List.insertionSort entryLe`. -/
def Mapping.push (m : Mapping) (guid : String) (pressed : Finset Input)
    (sprite : Nat) : Mapping :=
  let entry := m.joysticks guid
  let entry' :=
    if pressed = ∅ then
      entry.filter (fun sm => sm.sprite == sprite)
    else
      List.insertionSort entryLe (entry ++ [SpriteMapping.mk pressed sprite])
  ⟨fun g => if g = guid then entry' else m.joysticks g⟩

/-- `Mapping::sprites` from src/mapping.rs (lines 144-156).  The source keeps
an entry when `sprite_mapping.buttons().is_superset(pressed)`, i.e. when
`pressed ⊆ buttons`. -/
def Mapping.sprites (m : Mapping) (giud : String) (pressed : Finset Input) :
    List Nat :=
  ((m.joysticks giud).filter (fun sm => decide (pressed ⊆ sm.buttons))).map
    SpriteMapping.sprite

/-- Modelled from the spec: the resolution rule the specification describes
for `Mapping::sprites` ("returns every entry whose `buttons` is a subset of
`pressedSet`"), written here only to be compared with the source's
`Mapping.sprites`.  It is not part of the source. -/
def Mapping.spritesSpec (m : Mapping) (giud : String) (pressed : Finset Input) :
    List Nat :=
  ((m.joysticks giud).filter (fun sm => decide (sm.buttons ⊆ pressed))).map
    SpriteMapping.sprite

/-- A sequence of `Mapping::push` calls, applied in order. -/
def Mapping.pushMany (m : Mapping) : List (String × Finset Input × Nat) → Mapping
  | [] => m
  | (guid, pressed, sprite) :: rest => (m.push guid pressed sprite).pushMany rest

/-- `AxisLimits` from src/joysticks.rs: running calibration data of one axis.
All three fields are `i32` in the source, holding values cast from `i16`. -/
structure AxisLimits where
  default : Int
  min : Int
  max : Int
  deriving DecidableEq

/-- `AxisLimits::new` from src/joysticks.rs. -/
def AxisLimits.new (value : Int) : AxisLimits :=
  ⟨value, value, value⟩

/-- `AxisLimits::extend` from src/joysticks.rs (lines 42-45). -/
def AxisLimits.extend (l : AxisLimits) (value : Int) : AxisLimits :=
  { l with min := Min.min l.min value, max := Max.max l.max value }

/-- `AxisZone` from src/joysticks.rs. -/
inductive AxisZone
  | Min
  | Default
  | Max
  deriving DecidableEq

/-- `AxisLimits::zone` from src/joysticks.rs (lines 47-56): quarter-range
default zone around the first observed value.  `i32` division truncates
toward zero, hence `Int.tdiv`. -/
def AxisLimits.zone (l : AxisLimits) (value : Int) : AxisZone :=
  let bound := (Max.max l.min l.max).tdiv 4
  if |value - l.default| < bound then AxisZone.Default
  else if value < l.default then AxisZone.Min
  else if value > l.default then AxisZone.Max
  else AxisZone.Default

/-- Modelled from the spec: the lower threshold `offset + range/3` of the
thirds-based classification the specification adopts.  No such quantity
exists in src/ (the source uses the quarter-range bound above); it is defined
from the spec's words over the stored `min`/`max`. -/
def AxisLimits.lowThreshold (l : AxisLimits) : Int :=
  l.min + (l.max - l.min) / 3

/-- Modelled from the spec: the upper threshold `offset + 2*range/3` of the
thirds-based classification the specification adopts.  No such quantity
exists in src/. -/
def AxisLimits.highThreshold (l : AxisLimits) : Int :=
  l.min + 2 * (l.max - l.min) / 3

/-- `GuidAxis` from src/joysticks.rs: key of one analog channel. -/
structure GuidAxis where
  giud : String
  axis : Nat
  deriving DecidableEq

/-- `GuidAxis::new` from src/joysticks.rs. -/
def GuidAxis.new (guid : String) (axis : Nat) : GuidAxis :=
  ⟨guid, axis⟩

/-- `JoustickLimits` from src/joysticks.rs (sic): the per-channel calibration
table.  `HashMap<GuidAxis, AxisLimits>` is modelled as `GuidAxis → Option
AxisLimits`. -/
structure JoustickLimits where
  limits : GuidAxis → Option AxisLimits

/-- `JoustickLimits::new` from src/joysticks.rs. -/
def JoustickLimits.new : JoustickLimits :=
  ⟨fun _ => none⟩

/-- `JoustickLimits::reset` from src/joysticks.rs (`self.limits.clear()`). -/
def JoustickLimits.reset (_jl : JoustickLimits) : JoustickLimits :=
  ⟨fun _ => none⟩

/-- `JoustickLimits::update` from src/joysticks.rs (lines 82-89):
`entry(key).or_insert_with(|| AxisLimits::new(value)).extend(value)`. -/
def JoustickLimits.update (jl : JoustickLimits) (guid : String) (axis : Nat)
    (value : Int) : JoustickLimits :=
  let key := GuidAxis.new guid axis
  let cur := (jl.limits key).getD (AxisLimits.new value)
  ⟨fun k => if k = key then some (cur.extend value) else jl.limits k⟩

/-- `JoustickLimits::zone` from src/joysticks.rs (lines 91-98): an unknown
key yields `AxisZone::Default`. -/
def JoustickLimits.zone (jl : JoustickLimits) (guid : String) (axis : Nat)
    (value : Int) : AxisZone :=
  match jl.limits (GuidAxis.new guid axis) with
  | some limits => limits.zone value
  | none => AxisZone.Default

/-- One open device handle, as `Joysticks::update` reads it.  The sdl2
`Joystick` is an external collaborator; its per-frame reads are modelled
positionally: `axes.get i` is the result of `joystick.axis(i)`, with `none`
standing for a failed read (the `?` in the source), and similarly for
`buttons` (`joystick.button(i)`) and `hats` (`joystick.hat(i)`, already
converted to `State`). -/
structure Joystick where
  guid : String
  axes : List (Option Int)
  buttons : List (Option Bool)
  hats : List (Option State)

/-- `Joysticks` from src/joysticks.rs: the device aggregator.  The
`HashMap<u32, Joystick>` of handles is modelled as the list of its values in
iteration order, which is all `Joysticks::update` uses. -/
structure Joysticks where
  active : Option String
  pressed : Finset Input
  keyboard : Finset Input
  joysticks : List Joystick
  limits : JoustickLimits

/-- The body of the per-axis iteration of `Joysticks::update`
(src/joysticks.rs lines 175-191): feed the value to the calibration table,
classify it against the updated table, and on `Min`/`Max` insert the axis
input and mark the device active. -/
def axisStep (guid : String) (axis : Nat) (value : Int) (st : Joysticks) :
    Joysticks :=
  let limits := st.limits.update guid axis value
  match limits.zone guid axis value with
  | AxisZone.Min =>
      { st with limits := limits,
                pressed := insert (Input.axis_min axis) st.pressed,
                active := some guid }
  | AxisZone.Max =>
      { st with limits := limits,
                pressed := insert (Input.axis_max axis) st.pressed,
                active := some guid }
  | AxisZone.Default => { st with limits := limits }

/-- The axis loop of `Joysticks::update` (src/joysticks.rs lines 175-191),
beginning at index `axis`.  A failed read (`none`) aborts with `false`,
leaving the state as mutated so far. -/
def updateAxes (guid : String) (axis : Nat) (axes : List (Option Int))
    (st : Joysticks) : Joysticks × Bool :=
  match axes with
  | [] => (st, true)
  | none :: _ => (st, false)
  | some value :: rest => updateAxes guid (axis + 1) rest (axisStep guid axis value st)

/-- The button loop of `Joysticks::update` (src/joysticks.rs lines 193-200). -/
def updateButtons (guid : String) (button : Nat) (buttons : List (Option Bool))
    (st : Joysticks) : Joysticks × Bool :=
  match buttons with
  | [] => (st, true)
  | none :: _ => (st, false)
  | some b :: rest =>
      let st' :=
        if b then
          { st with pressed := insert (Input.button button) st.pressed,
                    active := some guid }
        else st
      updateButtons guid (button + 1) rest st'

/-- The hat loop of `Joysticks::update` (src/joysticks.rs lines 202-210). -/
def updateHats (guid : String) (hat : Nat) (hats : List (Option State))
    (st : Joysticks) : Joysticks × Bool :=
  match hats with
  | [] => (st, true)
  | none :: _ => (st, false)
  | some s :: rest =>
      let st' :=
        if s = State.Center then st
        else
          { st with pressed := insert (Input.hat hat s) st.pressed,
                    active := some guid }
      updateHats guid (hat + 1) rest st'

/-- Processing of one device inside `Joysticks::update`: the axis, button and
hat loops in order, each aborting the whole call on a failed read. -/
def updateJoystick (j : Joystick) (st : Joysticks) : Joysticks × Bool :=
  match updateAxes j.guid 0 j.axes st with
  | (st1, false) => (st1, false)
  | (st1, true) =>
    match updateButtons j.guid 0 j.buttons st1 with
    | (st2, false) => (st2, false)
    | (st2, true) => updateHats j.guid 0 j.hats st2

/-- The device loop of `Joysticks::update` (`for joystick in
self.joysticks.values()`). -/
def updateJoysticks : List Joystick → Joysticks → Joysticks × Bool
  | [], st => (st, true)
  | j :: rest, st =>
    match updateJoystick j st with
    | (st1, false) => (st1, false)
    | (st1, true) => updateJoysticks rest st1

/-- `Joysticks::update` from src/joysticks.rs (lines 168-219): clear
`pressed` and `active`, poll every device, then union the keyboard-origin
inputs.  The `Bool` is `true` for `Ok(())`; on `false` (an error return via
`?`) the returned state is `self` as mutated up to the failure point. -/
def Joysticks.update (j : Joysticks) : Joysticks × Bool :=
  let st := { j with pressed := (∅ : Finset Input), active := (none : Option String) }
  match updateJoysticks j.joysticks st with
  | (st1, false) => (st1, false)
  | (st1, true) =>
    if st1.keyboard = ∅ then (st1, true)
    else ({ st1 with pressed := st1.pressed ∪ st1.keyboard,
                     active := some "Keyboard" }, true)

/-- `SetupOverlay` from src/visualizer.rs: the wizard state.  The field
`current` is the cursor; the source method `SetupOverlay::current()` is
modelled as `currentSprite` below because a Lean structure cannot carry a
field and a method of the same name. -/
structure SetupOverlay where
  sprites : List Nat
  enabled : Bool
  current : Nat
  deriving DecidableEq

/-- `SetupOverlay::new` from src/visualizer.rs (lines 238-244). -/
def SetupOverlay.new (sprites : List Nat) : SetupOverlay :=
  ⟨sprites, false, 0⟩

/-- `SetupOverlay::current` from src/visualizer.rs (lines 250-255):
`self.sprites.get(self.current)`, with `0` when the cursor is out of range. -/
def SetupOverlay.currentSprite (s : SetupOverlay) : Nat :=
  match s.sprites.get? s.current with
  | some sprite => sprite
  | none => 0

/-- `SetupOverlay::enable` from src/visualizer.rs (lines 257-260). -/
def SetupOverlay.enable (s : SetupOverlay) : SetupOverlay :=
  { s with enabled := true, current := 0 }

/-- `SetupOverlay::disable` from src/visualizer.rs (lines 262-265); this is
what `Visualiser::cancel_setup` calls. -/
def SetupOverlay.disable (s : SetupOverlay) : SetupOverlay :=
  { s with enabled := false, current := 0 }

/-- `SetupOverlay::next_sprite` from src/visualizer.rs (lines 267-271). -/
def SetupOverlay.next_sprite (s : SetupOverlay) : SetupOverlay × Bool :=
  let s' := { s with current := s.current + 1 }
  let s'' := { s' with enabled := s'.current < s'.sprites.length }
  (s'', s''.enabled)

/-- Concrete mapping used to test `Mapping::sprites`: a single entry for
guid `A` binding the set `{Button 0}` to sprite `5`. -/
def mC1 : Mapping :=
  Mapping.new.push "A" {Input.button 0} 5

/-- Concrete mapping used to test the clear path of `Mapping::push`: entries
`({Button 0}, 5)` and `({Button 1}, 6)` for guid `A`, then `push("A", ∅, 5)`. -/
def mC2 : Mapping :=
  ((Mapping.new.push "A" {Input.button 0} 5).push "A" {Input.button 1} 6).push
    "A" (∅ : Finset Input) 5

/-- Concrete calibration table: one channel `("A", 0)` that observed
`-32768` and then `32767` (the spec's calibration scenario). -/
def jl0 : JoustickLimits :=
  (JoustickLimits.new.update "A" 0 (-32768)).update "A" 0 32767

/-- Concrete aggregator state used to test a failed `update()`: the previous
frame left `pressed = {Button 0}` and `active = "A"`, and the single
device's first axis read now fails. -/
def jC4 : Joysticks :=
  { active := some "A",
    pressed := {Input.button 0},
    keyboard := (∅ : Finset Input),
    joysticks := [⟨"A", [none], [], []⟩],
    limits := JoustickLimits.new }

/-- Calibration table for the two-device scenario: channels `("A", 0)` and
`("B", 0)` both calibrated to `default = 0`, `min = -100`, `max = 100`. -/
def limC5 : JoustickLimits :=
  ⟨fun k =>
    if k = GuidAxis.new "A" 0 then some ⟨0, -100, 100⟩
    else if k = GuidAxis.new "B" 0 then some ⟨0, -100, 100⟩
    else none⟩

/-- Concrete aggregator state with two devices whose shared axis index `0`
reads `-100` on device `A` and `100` on device `B`. -/
def jC5 : Joysticks :=
  { active := none,
    pressed := (∅ : Finset Input),
    keyboard := (∅ : Finset Input),
    joysticks := [⟨"A", [some (-100)], [], []⟩, ⟨"B", [some 100], [], []⟩],
    limits := limC5 }

/-- Membership in the result of `Mapping.sprites`: exactly the sprite ids of
stored entries whose `buttons` set contains the pressed set. -/
theorem mem_sprites_iff (m : Mapping) (guid : String) (P : Finset Input)
    (id : Nat) :
    id ∈ m.sprites guid P ↔
      ∃ sm, sm ∈ m.joysticks guid ∧ P ⊆ sm.buttons ∧ sm.sprite = id := by
  simp only [Mapping.sprites, List.mem_map, List.mem_filter, decide_eq_true_eq]
  constructor
  · rintro ⟨sm, ⟨hmem, hsub⟩, hsp⟩
    exact ⟨sm, hmem, hsub, hsp⟩
  · rintro ⟨sm, hmem, hsub, hsp⟩
    exact ⟨sm, ⟨hmem, hsub⟩, hsp⟩

/-- C1, counterexample.  The claim says `Mapping::sprites(guid, P)` returns
exactly the entries whose `buttons` is a subset of `P`.  On the mapping with
the single entry `({Button 0}, 5)` for guid `A` and the pressed set `∅`, the
subset rule (`Mapping.spritesSpec`, written from the spec) yields `[]`, but
the code yields `[5]`: the source matches entries whose `buttons` is a
superset of the pressed set. -/
theorem C1_counterexample :
    Mapping.sprites mC1 "A" ∅ = [5] ∧ Mapping.spritesSpec mC1 "A" ∅ = [] ∧
      Mapping.sprites mC1 "A" ∅ ≠ Mapping.spritesSpec mC1 "A" ∅ := by
  refine ⟨by decide, by decide, by decide⟩

/-- C1, amended.  `Mapping::sprites(guid, P)` returns exactly the sprite ids
of the stored entries for `guid` whose `buttons` set is a superset of `P`
(the reverse of the claim), listed in the stored order; consequently after
`push(guid, S, id)` with non-empty `S`, `sprites(guid, T)` contains `id` for
every subset `T` of `S` — including `S` itself. -/
theorem C1_sprites_superset_resolution :
    (∀ (m : Mapping) (guid : String) (P : Finset Input) (id : Nat),
      id ∈ m.sprites guid P ↔
        ∃ sm, sm ∈ m.joysticks guid ∧ P ⊆ sm.buttons ∧ sm.sprite = id)
    ∧ (∀ (m : Mapping) (guid : String) (P : Finset Input),
      (m.sprites guid P).Sublist ((m.joysticks guid).map SpriteMapping.sprite))
    ∧ (∀ (m : Mapping) (guid : String) (S T : Finset Input) (id : Nat),
      S ≠ ∅ → T ⊆ S → id ∈ (m.push guid S id).sprites guid T) := by
  refine ⟨mem_sprites_iff, fun m guid P => ?_, fun m guid S T id hS hT => ?_⟩
  · exact List.Sublist.map _ (List.filter_sublist _)
  · rw [mem_sprites_iff]
    refine ⟨SpriteMapping.mk S id, ?_, hT, rfl⟩
    simp [Mapping.push, hS, List.mem_insertionSort]

/-- C1, witness: after `push("A", {Button 0}, 5)` the query with the strictly
smaller pressed set `∅` does contain `5`. -/
theorem C1_witness :
    5 ∈ (Mapping.new.push "A" {Input.button 0} 5).sprites "A" ∅ :=
  C1_sprites_superset_resolution.2.2 Mapping.new "A" {Input.button 0} ∅ 5
    (by decide) (by decide)

/-- C2, code bug.  The claim (and the spec) say `push(guid, ∅, id)` removes
exactly the entries for `guid` whose sprite is `id`.  The source executes
`entry.retain(|sm| sm.sprite() == sprite)`, which KEEPS the matching entries
and removes all the others.  Starting from entries `({Button 0}, 5)` and
`({Button 1}, 6)` for guid `A`, `push("A", ∅, 5)` leaves exactly the
sprite-5 entry: sprite 6's binding is destroyed and `sprites` still returns
`5`. -/
theorem C2_push_empty_keeps_matching_entry :
    (mC2.joysticks "A").map SpriteMapping.sprite = [5] ∧
      5 ∈ mC2.sprites "A" {Input.button 0} ∧
      ¬ 6 ∈ (mC2.joysticks "A").map SpriteMapping.sprite := by
  refine ⟨by decide, by decide, by decide⟩

/-- C3, counterexample.  The claim states the thirds-based thresholds, under
which a value below `min + range/3` classifies `BelowMin`; in particular
after observing `-32768` then `32767`, `-15000` should classify `BelowMin`
and `0` should classify `Neutral`.  The source's `AxisLimits::zone` instead
uses a quarter-range band around the FIRST observed value (-32768 here), so
both `-15000` and `0` classify as `Max`. -/
theorem C3_counterexample :
    jl0.zone "A" 0 (-15000) ≠ AxisZone.Min ∧
      jl0.zone "A" 0 0 ≠ AxisZone.Default ∧
      jl0.zone "A" 0 (-15000) = AxisZone.Max ∧
      jl0.zone "A" 0 0 = AxisZone.Max ∧
      jl0.zone "A" 0 20000 = AxisZone.Max := by
  refine ⟨by decide, by decide, by decide, by decide, by decide⟩

/-- C3, amended.  Classification of a value `v` on a channel that observed
`v1` then `v2` uses the quarter-range default zone of the source: with
`default = v1` (the first observation) and `bound = max(v1, v2) / 4`
(truncated division of `max(min, max)`), `|v - default| < bound` classifies
`Default` (the spec's Neutral), otherwise `v < default` classifies `Min` and
`v > default` classifies `Max`.  In particular after observing `-32768` then
`32767`, the values `-15000`, `0` and `20000` all classify `Max`. -/
theorem C3_quarter_range_zone :
    (∀ (guid : String) (axis : Nat) (v1 v2 v : Int),
      ((JoustickLimits.new.update guid axis v1).update guid axis v2).zone guid
          axis v =
        (if |v - v1| < (Max.max v1 v2).tdiv 4 then AxisZone.Default
         else if v < v1 then AxisZone.Min
         else if v > v1 then AxisZone.Max
         else AxisZone.Default))
    ∧ (jl0.zone "A" 0 (-15000) = AxisZone.Max ∧ jl0.zone "A" 0 0 = AxisZone.Max ∧
        jl0.zone "A" 0 20000 = AxisZone.Max) := by
  refine ⟨fun guid axis v1 v2 v => ?_, by decide, by decide, by decide⟩
  have hmm : Max.max (Min.min v1 v2) (Max.max v1 v2) = Max.max v1 v2 :=
    max_eq_right (le_trans (min_le_left _ _) (le_max_left _ _))
  simp [JoustickLimits.update, JoustickLimits.zone, JoustickLimits.new,
    AxisLimits.new, AxisLimits.extend, AxisLimits.zone, Option.getD, hmm]

/-- `Mapping.push` keeps every per-guid list sorted, provided the list it
modifies was sorted. -/
theorem push_sorted (m : Mapping) (guid : String) (P : Finset Input) (id : Nat)
    (g : String) (h : List.Sorted entryLe (m.joysticks g)) :
    List.Sorted entryLe ((m.push guid P id).joysticks g) := by
  by_cases hg : g = guid
  · subst hg
    by_cases hP : P = ∅
    · have heq : (m.push g P id).joysticks g =
          (m.joysticks g).filter (fun sm => sm.sprite == id) := by
        simp [Mapping.push, hP]
      rw [heq]
      exact h.sublist (List.filter_sublist _)
    · have heq : (m.push g P id).joysticks g =
          List.insertionSort entryLe
            (m.joysticks g ++ [SpriteMapping.mk P id]) := by
        simp [Mapping.push, hP]
      rw [heq]
      exact List.sorted_insertionSort entryLe _
  · have heq : (m.push guid P id).joysticks g = m.joysticks g := by
      simp [Mapping.push, hg]
    rw [heq]
    exact h

/-- Any sequence of pushes starting from a mapping whose lists are all
sorted leaves all lists sorted. -/
theorem pushMany_sorted :
    ∀ (ops : List (String × Finset Input × Nat)) (m : Mapping),
      (∀ g, List.Sorted entryLe (m.joysticks g)) →
      ∀ g, List.Sorted entryLe ((m.pushMany ops).joysticks g)
  | [], _, h, g => h g
  | (guid, P, id) :: rest, m, h, g =>
      pushMany_sorted rest (m.push guid P id)
        (fun g' => push_sorted m guid P id g' (h g')) g

/-- C6: after any sequence of `Mapping::push` calls starting from
`Mapping::new`, every device's entry list is sorted by descending size of
the `buttons` set, ties broken by ascending sprite id (the order `entryLe`,
which is the sort key `(-(buttons.len()), sprite)` of the source). -/
theorem C6_push_list_sorted (ops : List (String × Finset Input × Nat))
    (guid : String) :
    List.Sorted entryLe ((Mapping.new.pushMany ops).joysticks guid) :=
  pushMany_sorted ops Mapping.new (fun _ => List.sorted_nil) guid

/-- C7, counterexample.  The claim says `current()` returns the sentinel `0`
whenever the wizard is disabled (Idle).  A freshly constructed overlay with
bindable list `[3]` is disabled, yet `current()` returns `3`: the source
never consults `enabled` and simply indexes the list with the cursor. -/
theorem C7_counterexample :
    (SetupOverlay.new [3]).enabled = false ∧
      SetupOverlay.currentSprite (SetupOverlay.new [3]) ≠ 0 := by
  refine ⟨by decide, by decide⟩

/-- C7, amended.  `current()` never consults the Idle/enabled flag: it
returns the entry of the bindable list at the cursor whenever the cursor is
in range, and the sentinel `0` whenever the cursor is out of range — in
particular always `0` when the bindable list is empty.  In the Idle states
produced by `disable` or by construction the cursor is `0`, so `current()`
there returns the FIRST bindable sprite id (or `0` for an empty list), not
necessarily `0`. -/
theorem C7_current_sentinel :
    (∀ s : SetupOverlay, s.sprites.length ≤ s.current → s.currentSprite = 0)
    ∧ (∀ (s : SetupOverlay) (h : s.current < s.sprites.length),
        s.currentSprite = s.sprites.get ⟨s.current, h⟩)
    ∧ (∀ s : SetupOverlay, s.sprites = [] → s.currentSprite = 0)
    ∧ (∀ s : SetupOverlay, (s.disable).currentSprite = s.sprites.headD 0)
    ∧ (∀ l : List Nat, (SetupOverlay.new l).currentSprite = l.headD 0) := by
  refine ⟨fun s h => ?_, fun s h => ?_, fun s h => ?_, fun s => ?_, fun l => ?_⟩
  · simp [SetupOverlay.currentSprite, List.getElem?_eq_none h]
  · simp [SetupOverlay.currentSprite, List.getElem?_eq_getElem h]
  · simp [SetupOverlay.currentSprite, h]
  · cases hs : s.sprites with
    | nil => simp [SetupOverlay.currentSprite, SetupOverlay.disable, hs]
    | cons a t => simp [SetupOverlay.currentSprite, SetupOverlay.disable, hs]
  · cases l with
    | nil => simp [SetupOverlay.currentSprite, SetupOverlay.new]
    | cons a t => simp [SetupOverlay.currentSprite, SetupOverlay.new]

/-- C7, witness: an out-of-range cursor (`5`) over the non-empty bindable
list `[3]` yields the sentinel `0`; an empty list yields `0` as well; and an
in-range cursor (`1` over `[3, 4]`) yields the listed sprite `4`, not the
sentinel. -/
theorem C7_witness :
    (SetupOverlay.mk [3] false 5).currentSprite = 0 ∧
      (SetupOverlay.mk [] true 5).currentSprite = 0 ∧
      (SetupOverlay.mk [3, 4] false 1).currentSprite = 4 :=
  ⟨C7_current_sentinel.1 ⟨[3], false, 5⟩ (by decide),
    C7_current_sentinel.2.2.1 ⟨[], true, 5⟩ rfl,
    (C7_current_sentinel.2.1 ⟨[3, 4], false, 1⟩ (by decide)).trans rfl⟩

/-- C8: `AxisLimits::extend` never raises the stored minimum and never
lowers the stored maximum; it preserves `min ≤ max`, which holds at
`AxisLimits::new`; and whenever `min ≤ max`, the spec-modelled thirds
thresholds satisfy `lowThreshold ≤ highThreshold`. -/
theorem C8_limits_monotone (l : AxisLimits) (v : Int) :
    ((l.extend v).min ≤ l.min ∧ l.max ≤ (l.extend v).max)
    ∧ (l.min ≤ l.max →
        (l.extend v).min ≤ (l.extend v).max ∧
          (l.extend v).lowThreshold ≤ (l.extend v).highThreshold)
    ∧ (∀ v0 : Int,
        (AxisLimits.new v0).min ≤ (AxisLimits.new v0).max ∧
          (AxisLimits.new v0).lowThreshold ≤ (AxisLimits.new v0).highThreshold) := by
  refine ⟨⟨?_, ?_⟩, fun h => ⟨?_, ?_⟩, fun v0 => ⟨?_, ?_⟩⟩
  all_goals simp [AxisLimits.extend, AxisLimits.new, AxisLimits.lowThreshold,
    AxisLimits.highThreshold]
  all_goals omega

/-- C8, witness: a concrete calibrated channel `(default 0, min -3, max 9)`
extended by `5`. -/
theorem C8_witness :
    ((⟨0, -3, 9⟩ : AxisLimits).extend 5).min ≤ ((⟨0, -3, 9⟩ : AxisLimits).extend 5).max ∧
      ((⟨0, -3, 9⟩ : AxisLimits).extend 5).lowThreshold ≤
        ((⟨0, -3, 9⟩ : AxisLimits).extend 5).highThreshold :=
  (C8_limits_monotone ⟨0, -3, 9⟩ 5).2.1 (by decide)

/-- C9: classifying a value on a channel with no stored limits — any key
absent from the table, in particular every key of a fresh or freshly reset
table — returns `AxisZone::Default` (the spec's Neutral), never an error;
in particular `classify(key, 100)` on a never-observed key is `Default`. -/
theorem C9_unknown_key_default :
    (∀ (jl : JoustickLimits) (guid : String) (axis : Nat) (v : Int),
      jl.limits (GuidAxis.new guid axis) = none →
      jl.zone guid axis v = AxisZone.Default)
    ∧ (∀ (jl : JoustickLimits) (guid : String) (axis : Nat) (v : Int),
      (jl.reset).zone guid axis v = AxisZone.Default)
    ∧ (∀ (guid : String) (axis : Nat),
      JoustickLimits.new.zone guid axis 100 = AxisZone.Default) := by
  refine ⟨fun jl guid axis v h => ?_, fun jl guid axis v => rfl,
    fun guid axis => rfl⟩
  simp [JoustickLimits.zone, h]

/-- C9, witness: the fresh table has no entry for `("X", 3)` and classifies
`100` there as `Default`. -/
theorem C9_witness : JoustickLimits.new.zone "X" 3 100 = AxisZone.Default :=
  C9_unknown_key_default.1 JoustickLimits.new "X" 3 100 rfl

/-- C10: `SetupOverlay::disable` (what `Visualiser::cancel_setup` calls) and
`SetupOverlay::enable` both reset the cursor to `0`; hence after a cancel
the next enable records from the first bindable sprite again — there is no
resume from the cancelled position. -/
theorem C10_cancel_enable_reset_cursor (s : SetupOverlay) :
    (s.disable).current = 0 ∧ (s.enable).current = 0 ∧
      ((s.disable).enable).current = 0 ∧
      (s.sprites ≠ [] → ((s.disable).enable).currentSprite = s.sprites.headD 0) := by
  refine ⟨rfl, rfl, rfl, fun h => ?_⟩
  cases hs : s.sprites with
  | nil => exact absurd hs h
  | cons a t =>
      simp [SetupOverlay.currentSprite, SetupOverlay.enable, SetupOverlay.disable, hs]

/-- C4, counterexample.  The claim says a failed `update()` leaves the
pressed set and the active device id unchanged.  On `jC4`, whose previous
frame left `pressed = {Button 0}` and `active = "A"` and whose device now
fails its first axis read, `update()` returns an error with both fields
cleared: the source clears them before polling and does not restore them. -/
theorem C4_counterexample :
    (jC4.update).2 = false ∧ (jC4.update).1.pressed ≠ jC4.pressed ∧
      (jC4.update).1.active ≠ jC4.active := by
  refine ⟨by decide, by decide, by decide⟩

/-- C4, amended.  A failed `Joysticks::update` does NOT preserve the
observable state: `pressed` and `active` are cleared at the start of the
call and reflect only the devices processed before the failure; in
particular when the first axis read of the first device fails, the caller
observes an empty pressed set and no active device, whatever their previous
values were. -/
theorem C4_failed_update_clears_state (j : Joysticks) (d : Joystick)
    (rest : List Joystick) (tl : List (Option Int))
    (hj : j.joysticks = d :: rest) (hd : d.axes = none :: tl) :
    (j.update).1.pressed = ∅ ∧ (j.update).1.active = none ∧
      (j.update).2 = false := by
  simp [Joysticks.update, hj, updateJoysticks, updateJoystick, updateAxes, hd]

/-- C4, witness: the amended statement at the concrete state `jC4`. -/
theorem C4_witness :
    (jC4.update).1.pressed = ∅ ∧ (jC4.update).1.active = none ∧
      (jC4.update).2 = false :=
  C4_failed_update_clears_state jC4 ⟨"A", [none], [], []⟩ [] [] rfl rfl

/-- Inserting the axis input of index `axis` into a pressed set whose axis
inputs all have index below `axis` keeps the index bound (now `axis + 1`)
and cannot create a Minimum/Maximum pair for any index. -/
theorem insert_axis_inv (P : Finset Input) (axis : Nat) (dir : Direction)
    (hlt : ∀ k d, Input.Axis k d ∈ P → k < axis)
    (hnb : ∀ i, ¬(Input.Axis i Direction.Minimum ∈ P ∧
        Input.Axis i Direction.Maximum ∈ P)) :
    (∀ k d, Input.Axis k d ∈ insert (Input.Axis axis dir) P → k < axis + 1) ∧
    (∀ i, ¬(Input.Axis i Direction.Minimum ∈ insert (Input.Axis axis dir) P ∧
        Input.Axis i Direction.Maximum ∈ insert (Input.Axis axis dir) P)) := by
  constructor
  · intro k d h
    rcases Finset.mem_insert.mp h with h | h
    · injection h with h1 h2
      omega
    · exact Nat.lt_succ_of_lt (hlt k d h)
  · rintro i ⟨hmin, hmax⟩
    rcases Finset.mem_insert.mp hmin with h1 | h1 <;>
      rcases Finset.mem_insert.mp hmax with h2 | h2
    · injection h1 with ha1 hb1
      injection h2 with ha2 hb2
      exact absurd (hb1.trans hb2.symm) (by decide)
    · injection h1 with ha1 hb1
      subst ha1
      have := hlt _ _ h2
      omega
    · injection h2 with ha2 hb2
      subst ha2
      have := hlt _ _ h1
      omega
    · exact hnb i ⟨h1, h2⟩

/-- One `axisStep` keeps the two pressed-set invariants, advancing the index
bound by one. -/
theorem axisStep_inv (guid : String) (axis : Nat) (value : Int)
    (st : Joysticks)
    (hlt : ∀ k d, Input.Axis k d ∈ st.pressed → k < axis)
    (hnb : ∀ i, ¬(Input.Axis i Direction.Minimum ∈ st.pressed ∧
        Input.Axis i Direction.Maximum ∈ st.pressed)) :
    (∀ k d, Input.Axis k d ∈ (axisStep guid axis value st).pressed →
        k < axis + 1) ∧
    (∀ i, ¬(Input.Axis i Direction.Minimum ∈ (axisStep guid axis value st).pressed ∧
        Input.Axis i Direction.Maximum ∈ (axisStep guid axis value st).pressed)) := by
  unfold axisStep
  cases hz : (st.limits.update guid axis value).zone guid axis value with
  | Min =>
      simpa [hz, Input.axis_min] using
        insert_axis_inv st.pressed axis Direction.Minimum hlt hnb
  | Max =>
      simpa [hz, Input.axis_max] using
        insert_axis_inv st.pressed axis Direction.Maximum hlt hnb
  | Default =>
      simp only [hz]
      exact ⟨fun k d h => Nat.lt_succ_of_lt (hlt k d h), hnb⟩

/-- The axis loop of `Joysticks::update` never produces both directions of
one axis in the pressed set, starting from a state whose axis inputs all
have index below the loop's starting index and contain no such pair. -/
theorem updateAxes_inv (guid : String) :
    ∀ (axes : List (Option Int)) (axis : Nat) (st : Joysticks),
      (∀ k d, Input.Axis k d ∈ st.pressed → k < axis) →
      (∀ i, ¬(Input.Axis i Direction.Minimum ∈ st.pressed ∧
          Input.Axis i Direction.Maximum ∈ st.pressed)) →
      ∀ i, ¬(Input.Axis i Direction.Minimum ∈ (updateAxes guid axis axes st).1.pressed ∧
          Input.Axis i Direction.Maximum ∈ (updateAxes guid axis axes st).1.pressed)
  | [], axis, st, _hlt, hnb => by simpa [updateAxes] using hnb
  | none :: rest, axis, st, _hlt, hnb => by simpa [updateAxes] using hnb
  | some v :: rest, axis, st, hlt, hnb => by
      have h := axisStep_inv guid axis v st hlt hnb
      simpa [updateAxes] using
        updateAxes_inv guid rest (axis + 1) (axisStep guid axis v st) h.1 h.2

/-- The button loop only ever inserts `Button` inputs: any axis input of its
result was already pressed before. -/
theorem updateButtons_axis_mem (guid : String) :
    ∀ (buttons : List (Option Bool)) (button : Nat) (st : Joysticks)
      (k : Nat) (d : Direction),
      Input.Axis k d ∈ (updateButtons guid button buttons st).1.pressed →
      Input.Axis k d ∈ st.pressed
  | [], _, _, _, _, h => by simpa [updateButtons] using h
  | none :: _, _, _, _, _, h => by simpa [updateButtons] using h
  | some false :: rest, button, st, k, d, h =>
      updateButtons_axis_mem guid rest (button + 1) st k d
        (by simpa [updateButtons] using h)
  | some true :: rest, button, st, k, d, h => by
      have h' := updateButtons_axis_mem guid rest (button + 1)
        { st with pressed := insert (Input.button button) st.pressed,
                  active := some guid } k d
        (by simpa [updateButtons] using h)
      rcases Finset.mem_insert.mp h' with h'' | h''
      · exact absurd h'' (by simp [Input.button])
      · exact h''

/-- The hat loop only ever inserts `Hat` inputs: any axis input of its
result was already pressed before. -/
theorem updateHats_axis_mem (guid : String) :
    ∀ (hats : List (Option State)) (hat : Nat) (st : Joysticks)
      (k : Nat) (d : Direction),
      Input.Axis k d ∈ (updateHats guid hat hats st).1.pressed →
      Input.Axis k d ∈ st.pressed
  | [], _, _, _, _, h => by simpa [updateHats] using h
  | none :: _, _, _, _, _, h => by simpa [updateHats] using h
  | some s :: rest, hat, st, k, d, h => by
      by_cases hc : s = State.Center
      · exact updateHats_axis_mem guid rest (hat + 1) st k d
          (by simpa [updateHats, hc] using h)
      · have h' := updateHats_axis_mem guid rest (hat + 1)
          { st with pressed := insert (Input.hat hat s) st.pressed,
                    active := some guid } k d
          (by simpa [updateHats, hc] using h)
        rcases Finset.mem_insert.mp h' with h'' | h''
        · exact absurd h'' (by simp [Input.hat])
        · exact h''

/-- `axisStep` does not change the keyboard set. -/
theorem axisStep_keyboard (guid : String) (axis : Nat) (value : Int)
    (st : Joysticks) : (axisStep guid axis value st).keyboard = st.keyboard := by
  cases hz : (st.limits.update guid axis value).zone guid axis value <;>
    simp [axisStep, hz]

/-- The axis loop does not change the keyboard set. -/
theorem updateAxes_keyboard (guid : String) :
    ∀ (axes : List (Option Int)) (axis : Nat) (st : Joysticks),
      (updateAxes guid axis axes st).1.keyboard = st.keyboard
  | [], _, _ => rfl
  | none :: _, _, _ => rfl
  | some v :: rest, axis, st => by
      simp only [updateAxes]
      rw [updateAxes_keyboard guid rest (axis + 1) (axisStep guid axis v st),
        axisStep_keyboard guid axis v st]

/-- The button loop does not change the keyboard set. -/
theorem updateButtons_keyboard (guid : String) :
    ∀ (buttons : List (Option Bool)) (button : Nat) (st : Joysticks),
      (updateButtons guid button buttons st).1.keyboard = st.keyboard
  | [], _, _ => rfl
  | none :: _, _, _ => rfl
  | some false :: rest, button, st => by
      simpa [updateButtons] using
        updateButtons_keyboard guid rest (button + 1) st
  | some true :: rest, button, st => by
      simpa [updateButtons] using
        updateButtons_keyboard guid rest (button + 1)
          { st with pressed := insert (Input.button button) st.pressed,
                    active := some guid }

/-- The hat loop does not change the keyboard set. -/
theorem updateHats_keyboard (guid : String) :
    ∀ (hats : List (Option State)) (hat : Nat) (st : Joysticks),
      (updateHats guid hat hats st).1.keyboard = st.keyboard
  | [], _, _ => rfl
  | none :: _, _, _ => rfl
  | some s :: rest, hat, st => by
      by_cases hc : s = State.Center
      · simpa [updateHats, hc] using
          updateHats_keyboard guid rest (hat + 1) st
      · simpa [updateHats, hc] using
          updateHats_keyboard guid rest (hat + 1)
            { st with pressed := insert (Input.hat hat s) st.pressed,
                      active := some guid }

/-- Processing one device does not change the keyboard set. -/
theorem updateJoystick_keyboard (j : Joystick) (st : Joysticks) :
    (updateJoystick j st).1.keyboard = st.keyboard := by
  unfold updateJoystick
  rcases hA : updateAxes j.guid 0 j.axes st with ⟨stA, bA⟩
  have hkA : stA.keyboard = st.keyboard := by
    have h := updateAxes_keyboard j.guid j.axes 0 st
    rw [hA] at h
    exact h
  cases bA with
  | false => exact hkA
  | true =>
      dsimp only
      rcases hB : updateButtons j.guid 0 j.buttons stA with ⟨stB, bB⟩
      have hkB : stB.keyboard = stA.keyboard := by
        have h := updateButtons_keyboard j.guid j.buttons 0 stA
        rw [hB] at h
        exact h
      cases bB with
      | false => exact hkB.trans hkA
      | true =>
          dsimp only
          have h := updateHats_keyboard j.guid j.hats 0 stB
          exact h.trans (hkB.trans hkA)

/-- Processing one device from a state whose pressed set has no axis inputs
at all never produces both directions of one axis. -/
theorem updateJoystick_nb (j : Joystick) (st : Joysticks)
    (h0 : ∀ k d, Input.Axis k d ∈ st.pressed → False) :
    ∀ i, ¬(Input.Axis i Direction.Minimum ∈ (updateJoystick j st).1.pressed ∧
        Input.Axis i Direction.Maximum ∈ (updateJoystick j st).1.pressed) := by
  intro i
  have hA := updateAxes_inv j.guid j.axes 0 st
    (fun k d h => absurd (h0 k d h) not_false)
    (fun i' hi' => h0 i' Direction.Minimum hi'.1)
  unfold updateJoystick
  rcases hAx : updateAxes j.guid 0 j.axes st with ⟨stA, bA⟩
  rw [hAx] at hA
  cases bA with
  | false => exact hA i
  | true =>
      dsimp only
      rcases hB : updateButtons j.guid 0 j.buttons stA with ⟨stB, bB⟩
      have hBmem : ∀ k d, Input.Axis k d ∈ stB.pressed →
          Input.Axis k d ∈ stA.pressed := by
        intro k d h
        have hmem := updateButtons_axis_mem j.guid j.buttons 0 stA k d
        rw [hB] at hmem
        exact hmem h
      cases bB with
      | false =>
          rintro ⟨h1, h2⟩
          exact hA i ⟨hBmem _ _ h1, hBmem _ _ h2⟩
      | true =>
          dsimp only
          rintro ⟨h1, h2⟩
          have hHmem : ∀ k d,
              Input.Axis k d ∈ (updateHats j.guid 0 j.hats stB).1.pressed →
              Input.Axis k d ∈ stB.pressed :=
            fun k d h => updateHats_axis_mem j.guid j.hats 0 stB k d h
          exact hA i ⟨hBmem _ _ (hHmem _ _ h1), hBmem _ _ (hHmem _ _ h2)⟩

/-- The device loop does not change the keyboard set. -/
theorem updateJoysticks_keyboard :
    ∀ (ds : List Joystick) (st : Joysticks),
      (updateJoysticks ds st).1.keyboard = st.keyboard
  | [], _ => rfl
  | d :: rest, st => by
      unfold updateJoysticks
      rcases hU : updateJoystick d st with ⟨st1, b1⟩
      have h1 : st1.keyboard = st.keyboard := by
        have h := updateJoystick_keyboard d st
        rw [hU] at h
        exact h
      cases b1 with
      | false => exact h1
      | true =>
          dsimp only
          rw [updateJoysticks_keyboard rest st1]
          exact h1

/-- The device loop over at most one device, started from a state whose
pressed set has no axis inputs, never produces both directions of one
axis. -/
theorem updateJoysticks_single_nb (ds : List Joystick) (st : Joysticks)
    (hlen : ds.length ≤ 1)
    (h0 : ∀ k d, Input.Axis k d ∈ st.pressed → False) :
    ∀ i, ¬(Input.Axis i Direction.Minimum ∈ (updateJoysticks ds st).1.pressed ∧
        Input.Axis i Direction.Maximum ∈ (updateJoysticks ds st).1.pressed) := by
  intro i
  cases ds with
  | nil =>
      rintro ⟨h1, _⟩
      exact h0 _ _ h1
  | cons d rest =>
      cases rest with
      | cons d2 rest2 => simp at hlen
      | nil =>
          have hnb := updateJoystick_nb d st h0 i
          unfold updateJoysticks
          rcases hU : updateJoystick d st with ⟨st1, b1⟩
          rw [hU] at hnb
          cases b1 with
          | false => exact hnb
          | true => exact hnb

/-- C5, counterexample.  The claim says the pressed set never contains both
`Axis(i, Minimum)` and `Axis(i, Maximum)` regardless of how many devices
are connected.  With two devices whose shared axis index `0` reads `-100`
(device `A`) and `100` (device `B`) against the calibrated limits of
`limC5`, a successful `update()` produces both inputs: `Input` carries no
device identity, so two devices can contribute opposite directions of the
same axis index. -/
theorem C5_counterexample :
    (jC5.update).2 = true ∧
      Input.axis_min 0 ∈ (jC5.update).1.pressed ∧
      Input.axis_max 0 ∈ (jC5.update).1.pressed := by
  refine ⟨by decide, by decide, by decide⟩

/-- C5, amended.  With at most ONE device connected and no keyboard-origin
inputs held, a successful `Joysticks::update` never produces both
`Axis(i, Minimum)` and `Axis(i, Maximum)` for any axis index `i`: within a
single device each axis index is classified once per frame, into at most
one direction.  (With several devices the property fails, as the
counterexample shows.) -/
theorem C5_single_device_no_both_directions (j : Joysticks) (i : Nat)
    (hlen : j.joysticks.length ≤ 1) (hkb : j.keyboard = ∅)
    (_hok : (j.update).2 = true) :
    ¬(Input.axis_min i ∈ (j.update).1.pressed ∧
      Input.axis_max i ∈ (j.update).1.pressed) := by
  have hnb := updateJoysticks_single_nb j.joysticks
    { j with pressed := (∅ : Finset Input), active := (none : Option String) }
    hlen (by simp) i
  have hkbJ : (updateJoysticks j.joysticks
      { j with pressed := (∅ : Finset Input),
               active := (none : Option String) }).1.keyboard = ∅ := by
    rw [updateJoysticks_keyboard]
    exact hkb
  rcases hJ : updateJoysticks j.joysticks
      { j with pressed := (∅ : Finset Input),
               active := (none : Option String) } with ⟨st1, b1⟩
  rw [hJ] at hnb hkbJ
  have hress : (j.update).1.pressed = st1.pressed := by
    simp only [Joysticks.update]
    rw [hJ]
    cases b1 with
    | false => rfl
    | true =>
        dsimp only
        rw [if_pos hkbJ]
  rw [hress]
  simpa [Input.axis_min, Input.axis_max] using hnb

/-- C5, witness: the amended statement at a concrete one-device state (the
state `jC4` with a successfully reading device instead). -/
theorem C5_witness :
    ¬(Input.axis_min 0 ∈ ((⟨none, ∅, ∅, [⟨"A", [some 7], [], []⟩],
          JoustickLimits.new⟩ : Joysticks).update).1.pressed ∧
      Input.axis_max 0 ∈ ((⟨none, ∅, ∅, [⟨"A", [some 7], [], []⟩],
          JoustickLimits.new⟩ : Joysticks).update).1.pressed) :=
  C5_single_device_no_both_directions
    ⟨none, ∅, ∅, [⟨"A", [some 7], [], []⟩], JoustickLimits.new⟩ 0
    (by decide) rfl (by decide)

/-- C10, witness: cancelling at cursor `1` of the list `[7, 8]` and enabling
again restarts at cursor `0`, i.e. at sprite `7`. -/
theorem C10_witness :
    (((⟨[7, 8], true, 1⟩ : SetupOverlay)).disable).current = 0 ∧
      ((⟨[7, 8], true, 1⟩ : SetupOverlay).enable).current = 0 ∧
      (((⟨[7, 8], true, 1⟩ : SetupOverlay).disable).enable).current = 0 ∧
      (((⟨[7, 8], true, 1⟩ : SetupOverlay).disable).enable).currentSprite =
        ([7, 8] : List Nat).headD 0 := by
  have h := C10_cancel_enable_reset_cursor ⟨[7, 8], true, 1⟩
  exact ⟨h.1, h.2.1, h.2.2.1, h.2.2.2 (by decide)⟩

end ShowGamepad
